import Mathlib

/-!
Verification of the family-letter crawler (`src/family_letter_crawler.py`).

The single routine `crawl_school_letters` fetches a listing page, locates a
notice table through four fallback strategies, and extracts one record per
data row.  The embedding below models the HTML parse tree as a node tree,
the BeautifulSoup queries as list traversals over that tree, the two regular
expressions as explicit character scans, and `urllib.parse.urljoin` as an
executable model.  Effects (the HTTP fetch and the outer `try/except` around
parsing) are made explicit as an input value of type `FetchResult`.
-/

namespace Crawler

/-- An HTML parse-tree node: either an element with a tag name, an attribute
list and children, or a text node.  This models the BeautifulSoup tree that
`BeautifulSoup(response.text, 'html.parser')` produces. -/
inductive Node where
  | elem (tag : String) (attrs : List (String × String)) (children : List Node)
  | text (s : String)

mutual

/-- All descendant nodes of a node, in document (pre-)order, excluding the
node itself.  BeautifulSoup's `find`/`find_all` search descendants only. -/
def Node.desc : Node → List Node
  | .text _ => []
  | .elem _ _ cs => Node.descList cs

/-- Descendants of a list of sibling nodes: each node followed by its own
descendants, in order. -/
def Node.descList : List Node → List Node
  | [] => []
  | c :: cs => c :: (Node.desc c ++ Node.descList cs)

end

mutual

/-- The text-node strings inside a node, in document order (the strings that
`get_text` concatenates). -/
def Node.texts : Node → List String
  | .text s => [s]
  | .elem _ _ cs => Node.textsList cs

/-- Text-node strings of a list of sibling nodes, in order. -/
def Node.textsList : List Node → List String
  | [] => []
  | c :: cs => Node.texts c ++ Node.textsList cs

end

/-- Model of Python `str.strip()`: remove whitespace from both ends. -/
def pyStrip (s : String) : String :=
  String.mk (((s.toList.dropWhile Char.isWhitespace).reverse.dropWhile
    Char.isWhitespace).reverse)

/-- Model of Python `str.startswith(p)`. -/
def pyStartswith (s p : String) : Bool :=
  p.toList.isPrefixOf s.toList

/-- Model of Python `str.replace('.', '-')` (single-character pattern):
replace every `.` character by `-`. -/
def replaceDots (s : String) : String :=
  String.mk (s.toList.map (fun c => if c = '.' then '-' else c))

/-- Split a string on whitespace runs, dropping empty pieces (how
BeautifulSoup tokenizes a `class` attribute into class names). -/
def splitWsAux : List Char → List Char → List (List Char)
  | [], acc => if acc = [] then [] else [acc.reverse]
  | c :: rest, acc =>
    if c.isWhitespace then
      if acc = [] then splitWsAux rest [] else acc.reverse :: splitWsAux rest []
    else splitWsAux rest (c :: acc)

/-- Whitespace-separated tokens of a string. -/
def splitWs (s : String) : List String :=
  (splitWsAux s.toList []).map String.mk

/-- Model of BeautifulSoup `tag.get_text(strip=True)`: each contained string
stripped, empty results dropped, the rest concatenated. -/
def getTextStrip (n : Node) : String :=
  String.join (((Node.texts n).map pyStrip).filter (fun s => s ≠ ""))

/-- Attribute lookup on an element (`tag.get(key)`); `none` on a text node or
a missing attribute. -/
def Node.attr (n : Node) (key : String) : Option String :=
  match n with
  | .elem _ attrs _ => attrs.lookup key
  | .text _ => none

/-- Does the node carry the given tag name? -/
def isTag (name : String) (n : Node) : Bool :=
  match n with
  | .elem t _ _ => t = name
  | .text _ => false

/-- Is the node an element at all? -/
def isElem (n : Node) : Bool :=
  match n with
  | .elem _ _ _ => true
  | .text _ => false

/-- BeautifulSoup class matching: the `class` attribute, split on whitespace,
contains the given class name. -/
def hasClass (n : Node) (c : String) : Bool :=
  match n.attr "class" with
  | some v => (splitWs v).contains c
  | none => false

/-- Model of `tag.find_all(name)`: all descendant elements with the tag name,
in document order. -/
def Node.findAllTag (n : Node) (name : String) : List Node :=
  n.desc.filter (isTag name)

/-- Model of `tag.find(name)`: first descendant element with the tag name. -/
def Node.findTag (n : Node) (name : String) : Option Node :=
  (n.findAllTag name).head?

/-- Model of `soup.find(id=v)`: first descendant element whose `id` attribute
equals `v` (any tag name). -/
def Node.findById (n : Node) (v : String) : Option Node :=
  (n.desc.filter (fun m => m.attr "id" == some v)).head?

/-- Model of `tag.find('div', class_=c)`. -/
def Node.findDivClass (n : Node) (c : String) : Option Node :=
  (n.desc.filter (fun m => isTag "div" m && hasClass m c)).head?

/-- Model of `tag.find('td', class_=c)`. -/
def Node.findTdClass (n : Node) (c : String) : Option Node :=
  (n.desc.filter (fun m => isTag "td" m && hasClass m c)).head?

/-- Direct child elements of a node (text children excluded), used by the
CSS child combinator `>`. -/
def Node.childElems (n : Node) : List Node :=
  match n with
  | .elem _ _ cs => cs.filter isElem
  | .text _ => []

/-- `schemeTail l = true` iff `l` begins with zero or more scheme characters
(alphanumeric, `+`, `-`, `.`) followed by a colon.  Used to model
`urllib.parse`'s scheme detection. -/
def schemeTail : List Char → Bool
  | [] => false
  | c :: rest => if c = ':' then true else
      (c.isAlphanum || c = '+' || c = '-' || c = '.') && schemeTail rest

/-- Does the string carry a URL scheme (`scheme:`), as `urllib.parse`
detects one: a letter, then scheme characters, then a colon? -/
def hasScheme (s : String) : Bool :=
  match s.toList with
  | [] => false
  | c :: rest => c.isAlpha && schemeTail rest

/-- Split `scheme://rest` into the scheme characters and the part after
`://`; `none` when the first colon is not followed by `//` or there is no
colon. -/
def splitSchemeRest : List Char → Option (List Char × List Char)
  | [] => none
  | c :: rest =>
    if c = ':' then
      match rest with
      | '/' :: '/' :: r => some ([], r)
      | _ => none
    else
      match splitSchemeRest rest with
      | some (pre, r) => some (c :: pre, r)
      | none => none

/-- The base path up to and including its last `/`; `/` when the path has
no slash (the directory against which a relative reference is merged). -/
def dirOf (path : List Char) : List Char :=
  let r := (path.reverse.dropWhile (fun c => c ≠ '/')).reverse
  if r = [] then ['/'] else r

/-- Model of `urllib.parse.urljoin(base, rel)` for the shapes this module
exercises: an empty `rel` returns `base`; a `rel` carrying its own scheme is
returned unchanged (the module never joins a `rel` whose scheme matches the
base's, since links starting with `http` are never passed to `urljoin`); a
network-path (`//…`), absolute-path (`/…`) or relative-path reference is
resolved against a base of the form `scheme://authority/path…`.  Dot-segment
normalization and query/fragment merging are not modelled; no claim
exercises them. -/
def urljoin (base rel : String) : String :=
  if rel = "" then base
  else if hasScheme rel then rel
  else
    match splitSchemeRest base.toList with
    | none => rel
    | some (scheme, afterSS) =>
      let auth := afterSS.takeWhile (fun c => c ≠ '/' && c ≠ '?' && c ≠ '#')
      let path := (afterSS.drop auth.length).takeWhile (fun c => c ≠ '?' && c ≠ '#')
      let sa := String.mk (scheme ++ ':' :: '/' :: '/' :: auth)
      if pyStartswith rel "//" then String.mk (scheme ++ [':']) ++ rel
      else if pyStartswith rel "/" then sa ++ rel
      else sa ++ String.mk (dirOf path) ++ rel

/-- Does the character list start with `D D D D . D D . D D` (digits `D`)?
If so, return those ten characters as a string.  This is one anchored
attempt of the date regex `(\d{4}\.\d{2}\.\d{2})`. -/
def dateAt (l : List Char) : Option String :=
  match l with
  | a :: b :: c :: d :: e :: f :: g :: h :: i :: j :: _ =>
    if a.isDigit && b.isDigit && c.isDigit && d.isDigit && e = '.' &&
       f.isDigit && g.isDigit && h = '.' && i.isDigit && j.isDigit then
      some (String.mk [a, b, c, d, e, f, g, h, i, j])
    else none
  | _ => none

/-- Leftmost match of the date pattern in a character list. -/
def searchDateAux : List Char → Option String
  | [] => none
  | c :: rest =>
    match dateAt (c :: rest) with
    | some t => some t
    | none => searchDateAux rest

/-- Model of `re.search(r'(\d{4}\.\d{2}\.\d{2})', s)`: leftmost occurrence of
a `YYYY.MM.DD`-shaped token, returning the matched group. -/
def searchDate (s : String) : Option String :=
  searchDateAux s.toList

/-- Model of `re.match(r'\d{4}\.\d{2}\.\d{2}', s)` (anchored at the start,
not required to span the whole string): does `s` begin with the dotted date
shape? -/
def matchDate (s : String) : Bool :=
  (dateAt s.toList).isSome

/-- One anchored attempt of the handler regex `['\"](\d+)['\"]`: a quote
character, a non-empty maximal digit run, then a quote character; the group
is the digit run.  (With `\d+` greedy and no shorter run able to reach a
quote, only the maximal run can match.) -/
def quotedDigitsAt (l : List Char) : Option String :=
  match l with
  | [] => none
  | q :: rest =>
    if q = '\'' || q = '"' then
      let ds := rest.takeWhile Char.isDigit
      if ds = [] then none
      else
        match rest.drop ds.length with
        | q2 :: _ => if q2 = '\'' || q2 = '"' then some (String.mk ds) else none
        | [] => none
    else none

/-- Leftmost match of the quoted-digits pattern in a character list. -/
def findQuotedDigitsAux : List Char → Option String
  | [] => none
  | c :: rest =>
    match quotedDigitsAt (c :: rest) with
    | some d => some d
    | none => findQuotedDigitsAux rest

/-- Model of `re.search(r"['\"](\d+)['\"]", s)`: group 1 of the leftmost
match. -/
def findQuotedDigits (s : String) : Option String :=
  findQuotedDigitsAux s.toList

/-- Site-name extraction attempted at one position: the anchored part of
`https?://(?:www\.)?([^/]+)`.  The optional `www.` is greedy but backtracks
when nothing non-`/` follows it. -/
def siteAt (l : List Char) : Option String :=
  let afterScheme : Option (List Char) :=
    if "https://".toList.isPrefixOf l then some (l.drop 8)
    else if "http://".toList.isPrefixOf l then some (l.drop 7)
    else none
  match afterScheme with
  | none => none
  | some rest =>
    if "www.".toList.isPrefixOf rest then
      let run := (rest.drop 4).takeWhile (fun c => c ≠ '/')
      if run ≠ [] then some (String.mk run)
      else
        let run2 := rest.takeWhile (fun c => c ≠ '/')
        if run2 ≠ [] then some (String.mk run2) else none
    else
      let run := rest.takeWhile (fun c => c ≠ '/')
      if run ≠ [] then some (String.mk run) else none

/-- Leftmost match of the site-name pattern. -/
def searchSiteAux : List Char → Option String
  | [] => none
  | c :: rest =>
    match siteAt (c :: rest) with
    | some s => some s
    | none => searchSiteAux rest

/-- Model of lines 43-49: derive the site name from the URL with
`re.search(r'https?://(?:www\.)?([^/]+)', url)`, falling back to
`"unknown_site"`. -/
def deriveSite (url : String) : String :=
  match searchSiteAux url.toList with
  | some s => s
  | none => "unknown_site"

/-- Strategy 1 (line 84): the CSS selector
`#subContent > div > div.BD_list > table > tbody`, first match. -/
def selectMethod1 (doc : Node) : Option Node :=
  (((((doc.desc.filter (fun m => m.attr "id" == some "subContent")).flatMap
      (fun s => s.childElems.filter (isTag "div"))).flatMap
      (fun d => d.childElems.filter (fun m => isTag "div" m && hasClass m "BD_list"))).flatMap
      (fun b => b.childElems.filter (isTag "table"))).flatMap
      (fun t => t.childElems.filter (isTag "tbody"))).head?

/-- Strategy 2 (lines 87-96): stepwise descent `find(id='subContent')`,
`find('div')`, `find('div', class_='BD_list')`, `find('table')`,
`find('tbody')`. -/
def selectMethod2 (doc : Node) : Option Node := do
  let sc ← doc.findById "subContent"
  let d ← sc.findTag "div"
  let bd ← d.findDivClass "BD_list"
  let t ← bd.findTag "table"
  t.findTag "tbody"

/-- Strategy 3 (lines 99-104): `find('div', class_='BD_list')`, then its
table's body. -/
def selectMethod3 (doc : Node) : Option Node := do
  let bd ← doc.findDivClass "BD_list"
  let t ← bd.findTag "table"
  t.findTag "tbody"

/-- Strategy 4 (lines 107-120): the first table whose `tbody` has at least
one row and whose first row contains `td` cells. -/
def selectMethod4 (doc : Node) : Option Node :=
  (doc.findAllTag "table").findSome? (fun t =>
    match t.findTag "tbody" with
    | none => none
    | some tb =>
      match tb.findAllTag "tr" with
      | [] => none
      | r :: _ => if (r.findAllTag "td").isEmpty then none else some tb)

/-- The full table-location step (lines 81-120): the four strategies tried
in priority order, first non-null result wins. -/
def findTbody (doc : Node) : Option Node :=
  match selectMethod1 doc with
  | some t => some t
  | none =>
    match selectMethod2 doc with
    | some t => some t
    | none =>
      match selectMethod3 doc with
      | some t => some t
      | none => selectMethod4 doc

/-- One extracted notice record (the per-row dict built at lines 240-248). -/
structure Letter where
  number : String
  title : String
  author : String
  date : String
  views : String
  url : String
  has_attachment : Bool
deriving Repr, DecidableEq

/-- The `meta` object of the returned envelope.  `error` is `some` exactly
when the Python dict carries an `"error"` key. -/
structure Meta where
  total_count : Nat
  last_updated : String
  source : String
  url : String
  error : Option String
deriving Repr, DecidableEq

/-- The function's return value. -/
structure Envelope where
  letters : List Letter
  meta : Meta
deriving Repr, DecidableEq

/-- Diagnostic-log events emitted while extracting one row. -/
inductive RowLog where
  | dateFoundAt (idx : Nat) (date : String)
  | missingDate (cellTexts : List String)
deriving Repr, DecidableEq

/-- The outcome of the effectful prefix of the call, made explicit: the HTTP
fetch either raises a `requests.RequestException` (lines 58-62), or the body
is parsed into a node tree; `parseFailure` stands for the outer
`except Exception` at line 258 (an unexpected exception raised by the
runtime during the parse/search phase, which the embedding cannot itself
produce). -/
inductive FetchResult where
  | fetchFailure (msg : String)
  | parseFailure (msg : String)
  | success (doc : Node)

/-- The fixed detail-page URL template of line 177, instantiated with the
recovered numeric identifier. -/
def nttDetailUrl (d : String) : String :=
  "/ocheonhs/na/ntt/selectNttView.do?mi=159125&bbsId=76556&nttSn=" ++ d

/-- The raw link of a row before resolution against the page URL
(lines 160-197, excluding the two `urljoin` steps): from the `ta_l` title
cell's anchor when one exists — with `javascript:` pseudo-links replaced via
the `onclick` pattern match — otherwise from the second cell's anchor. -/
def rawLink (row c1 : Node) : String :=
  match row.findTdClass "ta_l" with
  | some tc =>
    match tc.findTag "a" with
    | some a =>
      let link0 := (a.attr "href").getD ""
      if pyStartswith link0 "javascript:" then
        let onclick := (a.attr "onclick").getD ""
        if onclick = "" then link0
        else
          match findQuotedDigits onclick with
          | some d => nttDetailUrl d
          | none => ""
      else link0
    | none => ""
  | none =>
    match c1.findTag "a" with
    | some a => (a.attr "href").getD ""
    | none => ""

/-- The title of a row (lines 160-197, the `title` assignments): the `ta_l`
cell's anchor text, else that cell's text, else the second cell's anchor
text, else the second cell's text. -/
def titleOf (row c1 : Node) : String :=
  match row.findTdClass "ta_l" with
  | some tc =>
    match tc.findTag "a" with
    | some a => getTextStrip a
    | none => getTextStrip tc
  | none =>
    match c1.findTag "a" with
    | some a => getTextStrip a
    | none => getTextStrip c1

/-- The resolution step `if link and not link.startswith('http'): link =
urljoin(url, link)` (lines 181-182 and 193-194).  The code applies it inside
each branch that produced a non-empty link; branches producing `""` are
unaffected by it, so applying it once to the raw link is equal. -/
def resolveLink (url link : String) : String :=
  if link = "" then link
  else if pyStartswith link "http" then link
  else urljoin url link

/-- The scan of lines 211-219: first cell (by index, from 0) whose stripped
text contains a date token, with the token. -/
def scanDate : List Crawler.Node → Nat → Option (Nat × String)
  | [], _ => none
  | c :: cs, i =>
    match searchDate (getTextStrip c) with
    | some t => some (i, t)
    | none => scanDate cs (i + 1)

/-- The date-recovery step (lines 199-222): search the fourth cell first,
then all cells in order; also the debug log emitted when the fallback scan
finds the date. -/
def rowDate (cells : List Node) : String × List RowLog :=
  let d3 :=
    match cells.get? 3 with
    | some c =>
      match searchDate (getTextStrip c) with
      | some t => t
      | none => ""
    | none => ""
  if d3 = "" then
    match scanDate cells 0 with
    | some (i, t) => (t, [RowLog.dateFoundAt i t])
    | none => ("", [])
  else (d3, [])

/-- The date-formatting step (lines 231-238): dotted dates become dashed;
anything else is kept as is.  (The `try/except` around it cannot fire:
`re.match` and `str.replace` do not raise.) -/
def formatDate (s : String) : String :=
  if matchDate s then replaceDots s else s

/-- Extraction of one table row (lines 141-254): skip rows containing a
`th`, rows with fewer than four `td` cells, and rows whose first cell is a
pinned/notice marker; otherwise build the record and the row's log events.
The per-row `except` branch (lines 252-254) is unreachable in the embedding,
where every step is total. -/
def extractRow (url : String) (row : Node) : Option Letter × List RowLog :=
  if (row.findTag "th").isSome then (none, [])
  else
    match row.findAllTag "td" with
    | c0 :: c1 :: c2 :: c3 :: rest =>
      let cells := c0 :: c1 :: c2 :: c3 :: rest
      let number := getTextStrip c0
      if number = "공지" ∨ number = "통합공지" then (none, [])
      else
        let link := resolveLink url (rawLink row c1)
        let dr := rowDate cells
        let logs :=
          if dr.1 = "" then dr.2 ++ [RowLog.missingDate (cells.map getTextStrip)]
          else dr.2
        let hasAtt := cells.any (fun c => (c.findTag "img").isSome)
        (some { number := number, title := titleOf row c1, author := "",
                date := formatDate dr.1, views := "0", url := link,
                has_attachment := hasAtt }, logs)
    | _ => (none, [])

/-- The whole call `crawl_school_letters(url, site_name)` (lines 32-283).
The effectful fetch/parse prefix is the explicit `fetched` input; `today` is
`datetime.now().strftime("%Y-%m-%d")`.  Python's `if not site_name` treats
both `None` and `""` as absent. -/
def crawl_school_letters (fetched : FetchResult) (url : String)
    (siteName : Option String) (today : String) : Envelope :=
  let site :=
    match siteName with
    | some s => if s = "" then deriveSite url else s
    | none => deriveSite url
  match fetched with
  | .fetchFailure msg =>
    { letters := [],
      meta := { total_count := 0, last_updated := today, source := site,
                url := url, error := some msg } }
  | .parseFailure msg =>
    { letters := [],
      meta := { total_count := 0, last_updated := today, source := site,
                url := url, error := some ("HTML 파싱 오류: " ++ msg) } }
  | .success doc =>
    match findTbody doc with
    | none =>
      { letters := [],
        meta := { total_count := 0, last_updated := today, source := site,
                  url := url, error := some "가정통신문 테이블을 찾을 수 없습니다." } }
    | some tb =>
      let letters := (tb.findAllTag "tr").filterMap (fun r => (extractRow url r).1)
      { letters := letters,
        meta := { total_count := letters.length, last_updated := today,
                  source := site, url := url, error := none } }

/-! ### Concrete nodes for the end-to-end scenario and witnesses -/

/-- A plain data cell containing one text node. -/
def tdCell (s : String) : Node := .elem "td" [] [.text s]

/-- The scenario's header row: it contains `th` cells. -/
def c6headerRow : Node :=
  .elem "tr" [] [.elem "th" [] [.text "No"], .elem "th" [] [.text "Title"]]

/-- The scenario's pinned row: first cell is the notice marker. -/
def c6pinnedRow : Node :=
  .elem "tr" [] [tdCell "공지", tdCell "P", tdCell "x", tdCell "2024.01.05"]

/-- The scenario's data row
`["1", "<a href='/view?id=9'>Notice A</a>", "author", "2024.01.10"]`. -/
def c6dataRow : Node :=
  .elem "tr" [] [tdCell "1",
    .elem "td" [] [.elem "a" [("href", "/view?id=9")] [.text "Notice A"]],
    tdCell "author", tdCell "2024.01.10"]

/-- The scenario's document: a `BD_list` div holding the table body with the
three rows. -/
def c6doc : Node :=
  .elem "html" [] [.elem "body" [] [.elem "div" [("class", "BD_list")]
    [.elem "table" [] [.elem "tbody" [] [c6headerRow, c6pinnedRow, c6dataRow]]]]]

/-- Does the string have exactly the shape `DDDD.DD.DD` (`D` a digit)? -/
def isDotDate (s : String) : Bool :=
  match s.toList with
  | [a, b, c, d, e, f, g, h, i, j] =>
    a.isDigit && b.isDigit && c.isDigit && d.isDigit && e = '.' &&
    f.isDigit && g.isDigit && h = '.' && i.isDigit && j.isDigit
  | _ => false

/-- Does the string have exactly the shape `DDDD-DD-DD` (`D` a digit)? -/
def isDashDate (s : String) : Bool :=
  match s.toList with
  | [a, b, c, d, e, f, g, h, i, j] =>
    a.isDigit && b.isDigit && c.isDigit && d.isDigit && e = '-' &&
    f.isDigit && g.isDigit && h = '-' && i.isDigit && j.isDigit
  | _ => false

/-- A title-cell anchor with a `javascript:` href and no `onclick`
attribute. -/
def c4cexAnchor : Node := .elem "a" [("href", "javascript:fn()")] [.text "T"]

/-- A data row whose `ta_l` title cell holds `c4cexAnchor`. -/
def c4cexRow : Node :=
  .elem "tr" [] [tdCell "3", .elem "td" [("class", "ta_l")] [c4cexAnchor],
    tdCell "w", tdCell "2024.03.03"]

/-- A document holding only `c4cexRow`. -/
def c4cexDoc : Node :=
  .elem "html" [] [.elem "div" [("class", "BD_list")]
    [.elem "table" [] [.elem "tbody" [] [c4cexRow]]]]

/-- A title-cell anchor with a `javascript:` href and an `onclick` carrying
a quoted numeric token. -/
def c4wAnchor : Node :=
  .elem "a" [("href", "javascript:void(0)"), ("onclick", "fn('123');")] [.text "W"]

/-- The `ta_l` title cell holding `c4wAnchor`. -/
def c4wTd : Node := .elem "td" [("class", "ta_l")] [c4wAnchor]

/-- A data row whose title cell is `c4wTd`. -/
def c4wRow : Node :=
  .elem "tr" [] [tdCell "4", c4wTd, tdCell "w", tdCell "2024.04.04"]

/-- The record extracted from `c4wRow` at page URL `http://s.example/l`. -/
def c4wLetter : Letter :=
  { number := "4", title := "W", author := "", date := "2024-04-04",
    views := "0",
    url := "http://s.example/ocheonhs/na/ntt/selectNttView.do?mi=159125&bbsId=76556&nttSn=123",
    has_attachment := false }

/-- A plain data row with a relative detail link. -/
def c5wRow : Node :=
  .elem "tr" [] [tdCell "7",
    .elem "td" [] [.elem "a" [("href", "/x")] [.text "T"]],
    tdCell "w", tdCell "2024.01.10"]

/-- The record extracted from `c5wRow` at page URL `http://h/p`. -/
def c5wLetter : Letter :=
  { number := "7", title := "T", author := "", date := "2024-01-10",
    views := "0", url := "http://h/x", has_attachment := false }

/-- A data row with one notice link. -/
def c7row : Node :=
  .elem "tr" [] [tdCell "1",
    .elem "td" [] [.elem "a" [("href", "/view?id=9")] [.text "Notice A"]],
    tdCell "author", tdCell "2024.01.10"]

/-- A document holding only `c7row`. -/
def c7doc : Node :=
  .elem "html" [] [.elem "div" [("class", "BD_list")]
    [.elem "table" [] [.elem "tbody" [] [c7row]]]]

/-- The record extracted from `c7row` at page URL `http://h/p`. -/
def c7letter : Letter :=
  { number := "1", title := "Notice A", author := "", date := "2024-01-10",
    views := "0", url := "http://h/view?id=9", has_attachment := false }

/-- A row with a single cell, too short to represent a notice. -/
def c8wRow : Node := .elem "tr" [] [.elem "td" [] [.text "1"]]

/-- A data row whose title link `httpd.conf` is relative yet begins with the
letters `http`. -/
def c9cexRow : Node :=
  .elem "tr" [] [tdCell "2",
    .elem "td" [] [.elem "a" [("href", "httpd.conf")] [.text "Conf"]],
    tdCell "w", tdCell "2024.02.02"]

/-- A document holding only `c9cexRow`. -/
def c9cexDoc : Node :=
  .elem "html" [] [.elem "div" [("class", "BD_list")]
    [.elem "table" [] [.elem "tbody" [] [c9cexRow]]]]

/-- The second cell of `c9wRow`, holding a relative link. -/
def c9wTd : Node := .elem "td" [] [.elem "a" [("href", "/x")] [.text "T"]]

/-- A data row with the relative link cell `c9wTd`. -/
def c9wRow : Node :=
  .elem "tr" [] [tdCell "7", c9wTd, tdCell "w", tdCell "2024.01.10"]

/-- The record extracted from `c9wRow` at page URL `http://h/p`. -/
def c9wLetter : Letter :=
  { number := "7", title := "T", author := "", date := "2024-01-10",
    views := "0", url := "http://h/x", has_attachment := false }

/-- A data row with no date token in any cell. -/
def c10wRow : Node :=
  .elem "tr" [] [tdCell "5",
    .elem "td" [] [.elem "a" [("href", "/y")] [.text "T"]],
    tdCell "w", tdCell "nodate"]

/-- The record extracted from `c10wRow` at page URL `http://h/p`: its date
is empty. -/
def c10wLetter : Letter :=
  { number := "5", title := "T", author := "", date := "", views := "0",
    url := "http://h/y", has_attachment := false }

/-! ### Helper lemmas -/

/-- Inversion of the row extractor: an emitted record comes from a row with
no `th`, at least four `td` cells, a first cell that is not a pinned/notice
marker, and fields computed by the helper functions. -/
theorem extractRow_eq_some (url : String) (row : Node) (rec : Letter)
    (logs : List RowLog) (h : extractRow url row = (some rec, logs)) :
    ∃ c0 c1 c2 c3 rest,
      row.findAllTag "td" = c0 :: c1 :: c2 :: c3 :: rest ∧
      (row.findTag "th").isSome = false ∧
      getTextStrip c0 ≠ "공지" ∧ getTextStrip c0 ≠ "통합공지" ∧
      rec = { number := getTextStrip c0, title := titleOf row c1, author := "",
              date := formatDate (rowDate (c0 :: c1 :: c2 :: c3 :: rest)).1,
              views := "0", url := resolveLink url (rawLink row c1),
              has_attachment := (c0 :: c1 :: c2 :: c3 :: rest).any
                (fun c => (c.findTag "img").isSome) } ∧
      logs = (if (rowDate (c0 :: c1 :: c2 :: c3 :: rest)).1 = "" then
                (rowDate (c0 :: c1 :: c2 :: c3 :: rest)).2 ++
                  [RowLog.missingDate ((c0 :: c1 :: c2 :: c3 :: rest).map getTextStrip)]
              else (rowDate (c0 :: c1 :: c2 :: c3 :: rest)).2) := by
  unfold extractRow at h
  split at h
  · exact absurd h (by simp)
  · rename_i hth
    simp only [Bool.not_eq_true] at hth
    split at h
    · rename_i c0 c1 c2 c3 rest hcells
      dsimp only at h
      split at h
      · exact absurd h (by simp)
      · rename_i hnum
        push_neg at hnum
        simp only [Prod.mk.injEq, Option.some.injEq] at h
        exact ⟨c0, c1, c2, c3, rest, hcells, hth, hnum.1, hnum.2, h.1.symm, h.2.symm⟩
    · exact absurd h (by simp)

/-- Any token the date search returns has the dotted date shape. -/
theorem dateAt_shape {l : List Char} {t : String} (h : dateAt l = some t) :
    isDotDate t = true := by
  unfold dateAt at h
  split at h
  · rename_i a b c d e f g g2 i j rest
    split at h
    · rename_i hcond
      simp only [Option.some.injEq] at h
      subst h
      simpa [isDotDate] using hcond
    · exact absurd h (by simp)
  · exact absurd h (by simp)

/-- The leftmost-match scan preserves the token shape. -/
theorem searchDateAux_shape {l : List Char} {t : String}
    (h : searchDateAux l = some t) : isDotDate t = true := by
  induction l with
  | nil => exact absurd h (by simp [searchDateAux])
  | cons c rest ih =>
    unfold searchDateAux at h
    cases hd : dateAt (c :: rest) with
    | some u => rw [hd] at h; simp at h; subst h; exact dateAt_shape hd
    | none => rw [hd] at h; exact ih h

/-- Any token `searchDate` finds has the dotted date shape. -/
theorem searchDate_shape {s t : String} (h : searchDate s = some t) :
    isDotDate t = true :=
  searchDateAux_shape h

/-- A dotted-date token is not the empty string. -/
theorem isDotDate_ne_empty {t : String} (h : isDotDate t = true) : t ≠ "" := by
  intro e
  subst e
  exact absurd h (by decide)

/-- A digit character is not a dot. -/
theorem digit_ne_dot {c : Char} (h : c.isDigit = true) : c ≠ '.' := by
  intro e
  subst e
  exact absurd h (by decide)

/-- A dotted-date token passes the anchored `re.match` test of line 233. -/
theorem isDotDate_matchDate {t : String} (h : isDotDate t = true) :
    matchDate t = true := by
  unfold isDotDate at h
  unfold matchDate
  split at h
  · rename_i a b c d e f g g2 i j heq
    rw [heq]
    simp [dateAt, h]
  · exact absurd h (by simp)

/-- Replacing the dots of a dotted-date token yields a dashed date. -/
theorem isDotDate_replaceDots {t : String} (h : isDotDate t = true) :
    isDashDate (replaceDots t) = true := by
  unfold isDotDate at h
  split at h
  · rename_i a b c d e f g g2 i j heq
    simp only [Bool.and_eq_true, decide_eq_true_eq] at h
    obtain ⟨⟨⟨⟨⟨⟨⟨⟨⟨ha, hb⟩, hc⟩, hd⟩, he⟩, hf⟩, hg⟩, hh2⟩, hi⟩, hj⟩ := h
    have fa : (if a = '.' then '-' else a) = a := if_neg (digit_ne_dot ha)
    have fb : (if b = '.' then '-' else b) = b := if_neg (digit_ne_dot hb)
    have fc : (if c = '.' then '-' else c) = c := if_neg (digit_ne_dot hc)
    have fd : (if d = '.' then '-' else d) = d := if_neg (digit_ne_dot hd)
    have ff : (if f = '.' then '-' else f) = f := if_neg (digit_ne_dot hf)
    have fg : (if g = '.' then '-' else g) = g := if_neg (digit_ne_dot hg)
    have fi : (if i = '.' then '-' else i) = i := if_neg (digit_ne_dot hi)
    have fj : (if j = '.' then '-' else j) = j := if_neg (digit_ne_dot hj)
    have heqd : t.data = [a, b, c, d, e, f, g, g2, i, j] := heq
    simp [isDashDate, replaceDots, heqd, fa, fb, fc, fd, ff, fg, fi, fj, he,
      hh2, ha, hb, hc, hd, hf, hg, hi, hj]
  · exact absurd h (by simp)

/-- The token of the index-scanning fallback equals the first token found
over the cells' stripped texts. -/
theorem scanDate_map_snd (cells : List Node) (i : Nat) :
    (scanDate cells i).map Prod.snd =
    (cells.map getTextStrip).findSome? searchDate := by
  induction cells generalizing i with
  | nil => rfl
  | cons c cs ih =>
    simp only [scanDate, List.map_cons, List.findSome?_cons]
    cases hs : searchDate (getTextStrip c) with
    | some t => simp
    | none => exact ih (i + 1)

/-- Any token the fallback scan produces came out of `searchDate`. -/
theorem scanDate_token {cells : List Node} {i j : Nat} {t : String}
    (h : scanDate cells i = some (j, t)) : ∃ s, searchDate s = some t := by
  induction cells generalizing i with
  | nil => exact absurd h (by simp [scanDate])
  | cons c cs ih =>
    unfold scanDate at h
    cases hs : searchDate (getTextStrip c) with
    | some u =>
      rw [hs] at h
      simp only [Option.some.injEq, Prod.mk.injEq] at h
      exact ⟨getTextStrip c, by rw [hs, h.2]⟩
    | none =>
      rw [hs] at h
      exact ih h

/-- The date text a row produces is empty or a token found by the date
search. -/
theorem rowDate_fst_token (cells : List Node) :
    (rowDate cells).1 = "" ∨
    ∃ s t, searchDate s = some t ∧ (rowDate cells).1 = t := by
  unfold rowDate
  cases h3 : cells.get? 3 with
  | some c =>
    cases hs : searchDate (getTextStrip c) with
    | some t =>
      right
      have hne := isDotDate_ne_empty (searchDate_shape hs)
      exact ⟨getTextStrip c, t, hs, by simp [hs, hne]⟩
    | none =>
      cases hsc : scanDate cells 0 with
      | none => left; simp [hs, hsc]
      | some p =>
        right
        obtain ⟨j, t⟩ := p
        obtain ⟨s, hs2⟩ := scanDate_token hsc
        exact ⟨s, t, hs2, by simp [hs, hsc]⟩
  | none =>
    cases hsc : scanDate cells 0 with
    | none => left; simp [hsc]
    | some p =>
      right
      obtain ⟨j, t⟩ := p
      obtain ⟨s, hs2⟩ := scanDate_token hsc
      exact ⟨s, t, hs2, by simp [hsc]⟩

/-- A `javascript:`-prefixed link decomposes into that prefix and a tail. -/
theorem javascript_link_toList {l : String}
    (h : pyStartswith l "javascript:" = true) :
    ∃ r, l.toList = 'j' :: 'a' :: 'v' :: 'a' :: 's' :: 'c' :: 'r' :: 'i' ::
      'p' :: 't' :: ':' :: r := by
  have hpre : "javascript:".toList <+: l.toList :=
    List.isPrefixOf_iff_prefix.mp h
  obtain ⟨r, hr⟩ := hpre
  exact ⟨r, by rw [← hr]; rfl⟩

/-- A `javascript:`-prefixed link is non-empty. -/
theorem javascript_link_ne_empty {l : String}
    (h : pyStartswith l "javascript:" = true) : l ≠ "" := by
  intro e
  rw [e] at h
  exact absurd h (by decide)

/-- A `javascript:`-prefixed link does not start with `http`. -/
theorem javascript_link_not_http {l : String}
    (h : pyStartswith l "javascript:" = true) :
    pyStartswith l "http" = false := by
  obtain ⟨r, hr⟩ := javascript_link_toList h
  unfold pyStartswith
  rw [hr]
  simp [List.isPrefixOf]

/-- A `javascript:`-prefixed link carries a scheme. -/
theorem javascript_link_hasScheme {l : String}
    (h : pyStartswith l "javascript:" = true) : hasScheme l = true := by
  obtain ⟨r, hr⟩ := javascript_link_toList h
  unfold hasScheme
  rw [hr]
  rfl

/-- `urljoin` leaves a `javascript:` link unchanged (it has its own
scheme). -/
theorem urljoin_javascript (u : String) {l : String}
    (h : pyStartswith l "javascript:" = true) : urljoin u l = l := by
  rw [urljoin, if_neg (javascript_link_ne_empty h),
    if_pos (javascript_link_hasScheme h)]

/-- The resolution step leaves a `javascript:` link unchanged. -/
theorem resolveLink_javascript (u : String) {l : String}
    (h : pyStartswith l "javascript:" = true) : resolveLink u l = l := by
  rw [resolveLink, if_neg (javascript_link_ne_empty h),
    javascript_link_not_http h]
  exact urljoin_javascript u h

/-- The synthesized detail link is never empty. -/
theorem nttDetailUrl_ne_empty (d : String) : nttDetailUrl d ≠ "" := by
  intro e
  have h2 := congrArg String.toList e
  rw [show (nttDetailUrl d).toList = '/' ::
    ("ocheonhs/na/ntt/selectNttView.do?mi=159125&bbsId=76556&nttSn=".toList ++
      d.toList) from rfl] at h2
  exact absurd h2 (by simp)

/-- The synthesized detail link does not start with `http`. -/
theorem nttDetailUrl_not_http (d : String) :
    pyStartswith (nttDetailUrl d) "http" = false := rfl

/-- The resolution step always joins the synthesized detail link onto the
page URL. -/
theorem resolveLink_ntt (u d : String) :
    resolveLink u (nttDetailUrl d) = urljoin u (nttDetailUrl d) := by
  rw [resolveLink, if_neg (nttDetailUrl_ne_empty d), nttDetailUrl_not_http d]
  simp

/-! ### Claim theorems -/

/-- Claim C1: every failure mode of the call — fetch error, table not found,
parse error — yields an envelope with `letters = []` and `meta.error` set.
(The call is total by construction of the embedding, so nothing escapes to
the caller.) -/
theorem claim1_failure_envelope (fr : FetchResult) (url : String)
    (siteName : Option String) (today : String)
    (hfail : (∃ m, fr = .fetchFailure m) ∨ (∃ m, fr = .parseFailure m) ∨
             (∃ d, fr = .success d ∧ findTbody d = none)) :
    (crawl_school_letters fr url siteName today).letters = [] ∧
    (crawl_school_letters fr url siteName today).meta.error.isSome = true := by
  rcases hfail with ⟨m, rfl⟩ | ⟨m, rfl⟩ | ⟨d, rfl, hd⟩
  · exact ⟨rfl, rfl⟩
  · exact ⟨rfl, rfl⟩
  · simp [crawl_school_letters, hd]

/-- Witness for C1: a document with no table at all produces the empty,
error-carrying envelope. -/
theorem claim1_witness :
    (crawl_school_letters (.success (.text "no table here")) "http://h/p" none
      "2025-01-01").letters = [] ∧
    (crawl_school_letters (.success (.text "no table here")) "http://h/p" none
      "2025-01-01").meta.error.isSome = true :=
  claim1_failure_envelope _ _ _ _ (Or.inr (Or.inr ⟨_, rfl, rfl⟩))

/-- Claim C2: `meta.error` is present if and only if the call failed at the
fetch, table-location, or parse level; it is absent whenever the fetch
succeeds and a table is located, regardless of how many rows the row loop
skips. -/
theorem claim2_error_iff_failure (fr : FetchResult) (url : String)
    (siteName : Option String) (today : String) :
    (crawl_school_letters fr url siteName today).meta.error.isSome = true ↔
      (∃ m, fr = .fetchFailure m) ∨ (∃ m, fr = .parseFailure m) ∨
      (∃ d, fr = .success d ∧ findTbody d = none) := by
  cases fr with
  | fetchFailure m => simp [crawl_school_letters]
  | parseFailure m => simp [crawl_school_letters]
  | success d =>
    cases hd : findTbody d with
    | none => simp [crawl_school_letters, hd]
    | some tb => simp [crawl_school_letters, hd]

/-- Claim C3: on every path of the call, `meta.total_count` equals the
length of `letters`. -/
theorem claim3_total_count (fr : FetchResult) (url : String)
    (siteName : Option String) (today : String) :
    (crawl_school_letters fr url siteName today).meta.total_count =
    (crawl_school_letters fr url siteName today).letters.length := by
  cases fr with
  | fetchFailure m => rfl
  | parseFailure m => rfl
  | success d =>
    cases hd : findTbody d with
    | none => simp [crawl_school_letters, hd]
    | some tb => simp [crawl_school_letters, hd]

/-- Claim C6: the end-to-end scenario — a table body with one header row,
one pinned row labelled with the notice marker, and one data row
`["1", "<a href='/view?id=9'>Notice A</a>", "author", "2024.01.10"]` —
yields exactly one record with the expected fields and `total_count = 1`. -/
theorem claim6_end_to_end :
    crawl_school_letters (.success c6doc) "http://s.example/list?p=1"
      (some "site") "2025-01-01" =
    { letters := [{ number := "1", title := "Notice A", author := "",
                    date := "2024-01-10", views := "0",
                    url := "http://s.example/view?id=9",
                    has_attachment := false }],
      meta := { total_count := 1, last_updated := "2025-01-01",
                source := "site", url := "http://s.example/list?p=1",
                error := none } } := by
  decide

/-- Counterexample to claim C4 as stated: in `c4cexRow` the title link is a
`javascript:` pseudo-link, the anchor has no event-handler attribute at all
(so no quoted numeric token is present), yet the emitted record's url is the
raw `javascript:` href, not the empty string. -/
theorem claim4_counterexample :
    (crawl_school_letters (.success c4cexDoc) "http://s.example/l" (some "s")
      "2025-01-01").letters.map (fun r => r.url) = ["javascript:fn()"] ∧
    c4cexAnchor.attr "onclick" = none ∧
    ("javascript:fn()" : String) ≠ "" := by
  decide

/-- Claim C4 (amended): for an emitted row whose `ta_l` title cell's anchor
has a `javascript:` href — when the `onclick` attribute is non-empty and
contains a quoted run of digits, the url is the synthesized detail URL
(carrying `nttSn=` followed by those digits) resolved against the page URL;
when `onclick` is non-empty without a quoted numeric token, the url is
empty; when `onclick` is absent or empty, the raw `javascript:` href is
kept. -/
theorem claim4_amended (url : String) (row : Node) (rec : Letter)
    (logs : List RowLog) (tc a : Node)
    (h : extractRow url row = (some rec, logs))
    (htc : row.findTdClass "ta_l" = some tc)
    (ha : tc.findTag "a" = some a)
    (hjs : pyStartswith ((a.attr "href").getD "") "javascript:" = true) :
    ((a.attr "onclick").getD "" ≠ "" →
       (∀ d, findQuotedDigits ((a.attr "onclick").getD "") = some d →
          rec.url = urljoin url (nttDetailUrl d)) ∧
       (findQuotedDigits ((a.attr "onclick").getD "") = none → rec.url = "")) ∧
    ((a.attr "onclick").getD "" = "" → rec.url = (a.attr "href").getD "") := by
  obtain ⟨c0, c1, c2, c3, rest, hcells, _, _, _, hrec, _⟩ :=
    extractRow_eq_some url row rec logs h
  have hurl : rec.url = resolveLink url (rawLink row c1) := by rw [hrec]
  have hraw0 : rawLink row c1 =
      (if (a.attr "onclick").getD "" = "" then (a.attr "href").getD ""
       else
         match findQuotedDigits ((a.attr "onclick").getD "") with
         | some d => nttDetailUrl d
         | none => "") := by
    unfold rawLink
    rw [htc]
    dsimp only
    rw [ha]
    dsimp only
    rw [if_pos hjs]
  constructor
  · intro hoc
    constructor
    · intro d hd
      rw [hurl, hraw0, if_neg hoc, hd]
      exact resolveLink_ntt url d
    · intro hd
      rw [hurl, hraw0, if_neg hoc, hd]
      rfl
  · intro hoc
    rw [hurl, hraw0, if_pos hoc]
    exact resolveLink_javascript url hjs

/-- Witness for the amended C4: a row whose `onclick` carries the quoted
token `'123'` yields the synthesized detail URL joined onto the page
URL. -/
theorem claim4_witness :
    c4wLetter.url = urljoin "http://s.example/l" (nttDetailUrl "123") :=
  ((claim4_amended "http://s.example/l" c4wRow c4wLetter [] c4wTd c4wAnchor
    rfl rfl rfl rfl).1 (by decide)).1 "123" rfl

/-- Claim C5: for every emitted row, the record's date comes from the date
token of the fourth cell when one is there; otherwise from the first token
found scanning all cells in order; the token's dots are replaced by dashes;
and when no cell contains a token, the date is empty and a missing-date
warning is logged for the row. -/
theorem claim5_date_recovery (url : String) (row : Node) (rec : Letter)
    (logs : List RowLog) (h : extractRow url row = (some rec, logs)) :
    (∀ t, searchDate (((row.findAllTag "td").map getTextStrip).getD 3 "") = some t →
       rec.date = replaceDots t) ∧
    (searchDate (((row.findAllTag "td").map getTextStrip).getD 3 "") = none →
       (∀ t, ((row.findAllTag "td").map getTextStrip).findSome? searchDate = some t →
          rec.date = replaceDots t) ∧
       (((row.findAllTag "td").map getTextStrip).findSome? searchDate = none →
          rec.date = "" ∧
          RowLog.missingDate ((row.findAllTag "td").map getTextStrip) ∈ logs)) := by
  obtain ⟨c0, c1, c2, c3, rest, hcells, hth, hn1, hn2, hrec, hlogs⟩ :=
    extractRow_eq_some url row rec logs h
  have hdate : rec.date = formatDate (rowDate (c0 :: c1 :: c2 :: c3 :: rest)).1 := by
    rw [hrec]
  rw [hcells, hdate, hlogs]
  have hget3 : (((c0 :: c1 :: c2 :: c3 :: rest).map getTextStrip).getD 3 "") =
      getTextStrip c3 := rfl
  rw [hget3]
  cases hs3 : searchDate (getTextStrip c3) with
  | some t =>
    have hne : t ≠ "" := isDotDate_ne_empty (searchDate_shape hs3)
    have hro : rowDate (c0 :: c1 :: c2 :: c3 :: rest) = (t, []) := by
      unfold rowDate
      simp [hs3, hne]
    constructor
    · intro t' ht'
      simp only [Option.some.injEq] at ht'
      subst ht'
      rw [hro]
      have hdot := searchDate_shape hs3
      show formatDate t = replaceDots t
      rw [formatDate, if_pos (isDotDate_matchDate hdot)]
    · intro hnone
      exact absurd hnone (by simp)
  | none =>
    constructor
    · intro t' ht'
      exact absurd ht' (by simp)
    · intro _
      constructor
      · intro t hfs
        have hmap : (scanDate (c0 :: c1 :: c2 :: c3 :: rest) 0).map Prod.snd = some t := by
          rw [scanDate_map_snd]
          exact hfs
        obtain ⟨p, hp, hpt⟩ := Option.map_eq_some'.mp hmap
        obtain ⟨i0, t0⟩ := p
        simp only at hpt
        subst hpt
        have hro : (rowDate (c0 :: c1 :: c2 :: c3 :: rest)).1 = t0 := by
          unfold rowDate
          simp [hs3, hp]
        rw [hro]
        obtain ⟨s, hsearch⟩ := scanDate_token hp
        have hdot := searchDate_shape hsearch
        show formatDate t0 = replaceDots t0
        rw [formatDate, if_pos (isDotDate_matchDate hdot)]
      · intro hfs
        have hmap : (scanDate (c0 :: c1 :: c2 :: c3 :: rest) 0).map Prod.snd = none := by
          rw [scanDate_map_snd]
          exact hfs
        have hsc : scanDate (c0 :: c1 :: c2 :: c3 :: rest) 0 = none := by
          cases hq : scanDate (c0 :: c1 :: c2 :: c3 :: rest) 0 with
          | none => rfl
          | some q => rw [hq] at hmap; exact absurd hmap (by simp)
        have hro : rowDate (c0 :: c1 :: c2 :: c3 :: rest) = ("", []) := by
          unfold rowDate
          simp [hs3, hsc]
        rw [hro]
        constructor
        · rfl
        · simp

/-- Witness for C5: the fourth cell of `c5wRow` carries `2024.01.10`, and
the extracted record's date is that token with dots replaced by dashes. -/
theorem claim5_witness : c5wLetter.date = replaceDots "2024.01.10" :=
  (claim5_date_recovery "http://h/p" c5wRow c5wLetter [] rfl).1 "2024.01.10" rfl

/-- Claim C7: no extracted record's `number` equals either pinned/notice
marker; rows whose first cell's stripped text is a marker emit no record. -/
theorem claim7_no_pinned_markers (doc : Node) (url : String)
    (siteName : Option String) (today : String) (rec : Letter)
    (hmem : rec ∈ (crawl_school_letters (.success doc) url siteName today).letters) :
    rec.number ≠ "공지" ∧ rec.number ≠ "통합공지" := by
  unfold crawl_school_letters at hmem
  dsimp only at hmem
  cases hd : findTbody doc with
  | none => rw [hd] at hmem; simp at hmem
  | some tb =>
    rw [hd] at hmem
    simp only [List.mem_filterMap] at hmem
    obtain ⟨row, hrow, hsome⟩ := hmem
    have hpair : extractRow url row = (some rec, (extractRow url row).2) := by
      rw [← hsome]
    obtain ⟨c0, c1, c2, c3, rest, hcells, hth, hn1, hn2, hrec, hlogs⟩ :=
      extractRow_eq_some url row rec _ hpair
    have hnum : rec.number = getTextStrip c0 := by rw [hrec]
    rw [hnum]
    exact ⟨hn1, hn2⟩

/-- Witness for C7: the record extracted from `c7doc` has a number distinct
from both markers. -/
theorem claim7_witness :
    c7letter.number ≠ "공지" ∧ c7letter.number ≠ "통합공지" :=
  claim7_no_pinned_markers c7doc "http://h/p" (some "s") "2025-01-01" c7letter
    (by decide)

/-- Claim C8: a row containing a header cell or fewer than four data cells
emits no record, and every extracted record comes from a row of the located
table body with no header cell and at least four data cells. -/
theorem claim8_row_shape :
    (∀ (url : String) (row : Node),
       ((row.findTag "th").isSome = true ∨ (row.findAllTag "td").length < 4) →
       (extractRow url row).1 = none) ∧
    (∀ (doc : Node) (url : String) (siteName : Option String) (today : String)
       (rec : Letter),
       rec ∈ (crawl_school_letters (.success doc) url siteName today).letters →
       ∃ tb, findTbody doc = some tb ∧ ∃ row ∈ tb.findAllTag "tr",
         (extractRow url row).1 = some rec ∧ (row.findTag "th").isSome = false ∧
         4 ≤ (row.findAllTag "td").length) := by
  constructor
  · intro url row hbad
    rcases hbad with hth | hlen
    · simp [extractRow, hth]
    · unfold extractRow
      split
      · rfl
      · split
        · rename_i c0 c1 c2 c3 rest hcells
          rw [hcells] at hlen
          simp only [List.length_cons] at hlen
          omega
        · rfl
  · intro doc url siteName today rec hmem
    unfold crawl_school_letters at hmem
    dsimp only at hmem
    cases hd : findTbody doc with
    | none => rw [hd] at hmem; simp at hmem
    | some tb =>
      rw [hd] at hmem
      simp only [List.mem_filterMap] at hmem
      obtain ⟨row, hrow, hsome⟩ := hmem
      have hpair : extractRow url row = (some rec, (extractRow url row).2) := by
        rw [← hsome]
      obtain ⟨c0, c1, c2, c3, rest, hcells, hth, _, _, _, _⟩ :=
        extractRow_eq_some url row rec _ hpair
      refine ⟨tb, rfl, row, hrow, hsome, hth, ?_⟩
      rw [hcells]
      simp only [List.length_cons]
      omega

/-- Witness for C8: a one-cell row emits no record. -/
theorem claim8_witness : (extractRow "http://h/p" c8wRow).1 = none :=
  claim8_row_shape.1 "http://h/p" c8wRow (Or.inr (by decide))

/-- Counterexample to claim C9 as stated: in `c9cexDoc` the raw link
`httpd.conf` is relative (it has no scheme), yet the emitted record keeps it
unchanged instead of resolving it against the page URL, because the code
tests absoluteness by the prefix `http`. -/
theorem claim9_counterexample :
    (crawl_school_letters (.success c9cexDoc) "http://s.example/dir/page"
      (some "s") "2025-01-01").letters.map (fun r => r.url) = ["httpd.conf"] ∧
    hasScheme "httpd.conf" = false ∧
    urljoin "http://s.example/dir/page" "httpd.conf" =
      "http://s.example/dir/httpd.conf" ∧
    ("httpd.conf" : String) ≠ "http://s.example/dir/httpd.conf" := by
  decide

/-- Claim C9 (amended): for every emitted record with a non-empty raw link,
the link is kept unchanged exactly when it starts with `http`; otherwise it
is resolved against the source page's URL with `urljoin`.  (A relative link
whose text merely begins with `http` is therefore kept unchanged.) -/
theorem claim9_amended (url : String) (row : Node) (rec : Letter)
    (logs : List RowLog) (cell1 : Node)
    (hc1 : (row.findAllTag "td").get? 1 = some cell1)
    (h : extractRow url row = (some rec, logs))
    (hne : rawLink row cell1 ≠ "") :
    (pyStartswith (rawLink row cell1) "http" = true →
       rec.url = rawLink row cell1) ∧
    (pyStartswith (rawLink row cell1) "http" = false →
       rec.url = urljoin url (rawLink row cell1)) := by
  obtain ⟨c0, c1, c2, c3, rest, hcells, _, _, _, hrec, _⟩ :=
    extractRow_eq_some url row rec logs h
  have hcc : cell1 = c1 := by
    rw [hcells] at hc1
    simp at hc1
    exact hc1.symm
  subst hcc
  have hurl : rec.url = resolveLink url (rawLink row cell1) := by rw [hrec]
  constructor
  · intro hsw
    rw [hurl, resolveLink, if_neg hne, if_pos hsw]
  · intro hsw
    rw [hurl, resolveLink, if_neg hne, if_neg (by simp [hsw])]

/-- Witness for the amended C9: the relative link `/x` of `c9wRow` is
resolved against the page URL. -/
theorem claim9_witness : c9wLetter.url = urljoin "http://h/p" "/x" :=
  (claim9_amended "http://h/p" c9wRow c9wLetter [] c9wTd rfl rfl
    (by decide)).2 rfl

/-- Claim C10: every extracted record's date is either empty or exactly of
the dashed shape `DDDD-DD-DD`: every token the search finds is dotted and
is always normalized. -/
theorem claim10_date_shape (url : String) (row : Node) (rec : Letter)
    (logs : List RowLog) (h : extractRow url row = (some rec, logs)) :
    rec.date = "" ∨ isDashDate rec.date = true := by
  obtain ⟨c0, c1, c2, c3, rest, hcells, hth, hn1, hn2, hrec, hlogs⟩ :=
    extractRow_eq_some url row rec logs h
  subst hrec
  rcases rowDate_fst_token (c0 :: c1 :: c2 :: c3 :: rest) with hz | ⟨s, t, hs, ht⟩
  · left
    show formatDate (rowDate (c0 :: c1 :: c2 :: c3 :: rest)).1 = ""
    rw [hz]
    rfl
  · right
    show isDashDate (formatDate (rowDate (c0 :: c1 :: c2 :: c3 :: rest)).1) = true
    rw [ht]
    have hdot := searchDate_shape hs
    rw [formatDate, if_pos (isDotDate_matchDate hdot)]
    exact isDotDate_replaceDots hdot

/-- Witness for C10: the record of the dateless row `c10wRow` has an empty
date. -/
theorem claim10_witness :
    c10wLetter.date = "" ∨ isDashDate c10wLetter.date = true :=
  claim10_date_shape "http://h/p" c10wRow c10wLetter
    [RowLog.missingDate ["5", "T", "w", "nodate"]] rfl

end Crawler
